import Mathlib

/-!
Verification of the goose-dashboard session-streaming bridge.

The definitions below are a shallow embedding of the three Python source
files `goose-web.py`, `goose-tui.py` and `goose-hybrid.py`:
pure data flow is translated into Lean functions, the SQLite store into a
list of rows (insertion order = rowid order), subprocess invocation into an
explicit outcome type, and the UI / socket side effects into explicit event
and state values.  Machine-level concerns (actual sockets, threads, file
descriptors) are represented by the values they produce.
-/

namespace GooseDashboard

/-! ## Configuration endpoint (`goose-web.py`, `api_config`)

The config is a JSON object; we model it as an association list of
key/value pairs in insertion order, and Python `dict.update` as a left
fold that overwrites an existing key in place or appends a new one. -/

/-- First-match lookup of a key in an association-list config,
modelling Python dict access. -/
def lookupKey (cfg : List (String × String)) (k : String) : Option String :=
  match cfg with
  | [] => none
  | (k2, v) :: rest => if k2 == k then some v else lookupKey rest k

/-- Set one key in the config: overwrite in place if present
(Python dicts keep the original insertion position), else append. -/
def setKey (cfg : List (String × String)) (k v : String) : List (String × String) :=
  match cfg with
  | [] => [(k, v)]
  | (k2, v2) :: rest => if k2 == k then (k2, v) :: rest else (k2, v2) :: setKey rest k v

/-- Python `config.update(data)`: fold every supplied pair into the
existing config, left to right. -/
def dictUpdate (cfg upd : List (String × String)) : List (String × String) :=
  upd.foldl (fun acc kv => setKey acc kv.1 kv.2) cfg

/-- Result of the POST branch of `api_config`: the config written to
`config.json` and the config echoed in the JSON response. -/
structure ConfigPostResult where
  savedFile : List (String × String)
  response : List (String × String)
deriving Repr, DecidableEq

/-- Handler `api_config` POST branch (`goose-web.py` lines 46-61):
`config.update(data)`, then `json.dump(config, f)`, then
`return jsonify(\x7b"status": "success", "config": config\x7d)`. -/
def api_config_post (cfg upd : List (String × String)) : ConfigPostResult :=
  let merged := dictUpdate cfg upd
  { savedFile := merged, response := merged }

/-! ## Captured subprocess output

Both front-ends read the subprocess stdout line by line, `strip()` each
line and keep only the non-empty ones (`goose-tui.py` 312-316,
`goose-web.py` 188-194), then join with newlines. -/

/-- The result of one finished agent subprocess: its stdout lines as read
from the pipe, its exit code, and its stderr text. -/
structure ProcResult where
  outLines : List String
  exitCode : Int
  errText : String
deriving Repr, DecidableEq

/-- Python `str.strip()`: drop leading and trailing whitespace.  Written
over the character list so that it evaluates inside the kernel. -/
def pyStrip (s : String) : String :=
  (((s.data.dropWhile Char.isWhitespace).reverse.dropWhile Char.isWhitespace).reverse).asString

/-- The captured buffer: each raw stdout line is `strip()`-ed and the
empty results are dropped, preserving emission order. -/
def captureLines (raw : List String) : List String :=
  (raw.map pyStrip).filter (fun l => !(l == ""))

/-- Newline join of the captured buffer, modelling `"\n".join(response_lines)`. -/
def joinLines (ls : List String) : String := String.intercalate "\n" ls

/-- The sentinel the terminal front-end commits when the buffer is empty
(`goose-tui.py` line 326). -/
def noOutputSentinel : String := "✅ Task completed (no output)"

/-- Aggregation in the terminal front-end (`goose-tui.py` 321-326):
`full_response = "\n".join(response_lines)`, committed as-is when truthy,
replaced with the sentinel when empty. -/
def tuiAggregate (raw : List String) : String :=
  let full := joinLines (captureLines raw)
  if full == "" then noOutputSentinel else full

/-- Aggregation in the web front-end (`goose-web.py` 199):
always the plain newline join, with no empty-buffer special case. -/
def webAggregate (raw : List String) : String :=
  joinLines (captureLines raw)

/-! ## Session Registry (the shared SQLite store)

Both front-ends read `~/.config/goose/sessions.db`.  We model each table
as a list of rows in rowid (insertion) order, and an `ORDER BY` scan as a
stable insertion sort over that list. The store itself may also be missing
(the `exists()` checks) or corrupt (an `sqlite3` exception). -/

/-- One row of the `messages` table:
`messages(session_name, role, content, timestamp)`. -/
structure MsgRow where
  session_name : String
  role : String
  content : String
  timestamp : Nat
deriving Repr, DecidableEq

/-- One row of the `sessions` table:
`sessions(name, created_at, last_accessed, directory)`. -/
structure SessionRow where
  name : String
  created_at : Nat
  last_accessed : Nat
  directory : String
deriving Repr, DecidableEq

/-- Ascending comparison on message timestamps, the `ORDER BY timestamp ASC`
sort key. -/
def msgLE (a b : MsgRow) : Prop := a.timestamp ≤ b.timestamp

instance : DecidableRel msgLE := fun a b => Nat.decLe a.timestamp b.timestamp

instance : IsTotal MsgRow msgLE := ⟨fun a b => Nat.le_total a.timestamp b.timestamp⟩

instance : IsTrans MsgRow msgLE := ⟨fun _ _ _ h1 h2 => Nat.le_trans h1 h2⟩

/-- Descending comparison on session access times, the
`ORDER BY last_accessed DESC` sort key. -/
def accGE (a b : SessionRow) : Prop := b.last_accessed ≤ a.last_accessed

instance : DecidableRel accGE := fun a b => Nat.decLe b.last_accessed a.last_accessed

instance : IsTotal SessionRow accGE := ⟨fun a b => (Nat.le_total b.last_accessed a.last_accessed)⟩

instance : IsTrans SessionRow accGE := ⟨fun _ _ _ h1 h2 => Nat.le_trans h2 h1⟩

/-- The `SELECT role, content, timestamp FROM messages WHERE session_name = ?
ORDER BY timestamp ASC` scan shared by `api_session_history`
(`goose-web.py` 104-109) and `load_session_history` (`goose-tui.py` 386-391):
filter the table by session name in rowid order, then sort stably by
timestamp ascending. -/
def queryHistory (rows : List MsgRow) (name : String) : List MsgRow :=
  List.insertionSort msgLE (rows.filter (fun m => m.session_name == name))

/-- The `SELECT ... FROM sessions ORDER BY last_accessed DESC` scan shared
by `api_sessions` (`goose-web.py` 73-77) and `load_recent_sessions`
(`goose-tui.py` 353-358). -/
def querySessionsDesc (rows : List SessionRow) : List SessionRow :=
  List.insertionSort accGE rows

/-- Modelled from the spec: `appendMessage(sessionName, role, content,
timestamp)` appends one Message row to the store.  No code under `src/`
writes the `messages` table — the writer is the external agent binary —
so the append operation is taken from the Registry contract in the spec:
an append inserts exactly one new row after the existing ones. -/
def appendMessage (rows : List MsgRow) (m : MsgRow) : List MsgRow :=
  rows ++ [m]

/-- The store produced by a sequence of `appendMessage` calls starting
from an empty table. -/
def runAppends (ops : List MsgRow) : List MsgRow :=
  ops.foldl appendMessage []

/-- Modelled from the spec: the external agent subprocess is the sole
writer of the message store, so the rows an invocation adds are the writes
of the subprocesses it actually spawned — an invocation that spawned no
subprocess adds no row. -/
def invocationStoreWrites (spawned : Nat) (writesPerProc : List MsgRow) : List MsgRow :=
  (List.replicate spawned writesPerProc).flatten

/-- The three states of the backing store a handler can observe:
absent file, a store whose access raises (`sqlite3` error), or a healthy
store with its table rows. -/
inductive StoreState (ρ : Type) where
  | missing
  | corrupt (err : String)
  | ok (rows : List ρ)
deriving Repr, DecidableEq

/-! ## Web handlers (`goose-web.py`) -/

/-- Response of `/api/session/<name>/history`: HTTP status, the decoded
message list, and the error payload if any.  A missing database returns an
empty list with status 200 and no error field (lines 97-98); an
`sqlite3`/IO exception returns status 500 with the error text (122-123). -/
structure HistoryResponse where
  status : Nat
  messages : List MsgRow
  error : Option String
deriving Repr, DecidableEq

/-- Handler `api_session_history` (`goose-web.py` 94-123). -/
def api_session_history (store : StoreState MsgRow) (name : String) : HistoryResponse :=
  match store with
  | .missing => { status := 200, messages := [], error := none }
  | .corrupt e => { status := 500, messages := [], error := some e }
  | .ok rows => { status := 200, messages := queryHistory rows name, error := none }

/-- Response of `/api/sessions`, with the same shape conventions as
`HistoryResponse`. -/
structure SessionsResponse where
  status : Nat
  sessions : List SessionRow
  error : Option String
deriving Repr, DecidableEq

/-- Handler `api_sessions` (`goose-web.py` 63-92): returns every row of the
`sessions` table ordered by `last_accessed DESC`, with no `LIMIT` clause. -/
def api_sessions (store : StoreState SessionRow) : SessionsResponse :=
  match store with
  | .missing => { status := 200, sessions := [], error := none }
  | .corrupt e => { status := 500, sessions := [], error := some e }
  | .ok rows => { status := 200, sessions := querySessionsDesc rows, error := none }

/-! ## Process invocation model

`subprocess.run(cmd, timeout=t)` and `subprocess.Popen(cmd)` either raise
`FileNotFoundError` before any process exists (binary not on PATH), raise
`TimeoutExpired` when a timeout was set and the run exceeds it, or complete
with the process result. We model one run by its wall duration plus the
`ProcResult` it would produce if allowed to finish. -/

/-- The intrinsic behaviour of one agent run: how long it takes and what
it produces when it finishes. -/
structure ProcBehavior where
  duration : Nat
  result : ProcResult
deriving Repr, DecidableEq

/-- Outcome of one `subprocess` call. -/
inductive RunOutcome where
  | notInstalled
  | timedOut
  | done (p : ProcResult)
deriving Repr, DecidableEq

/-- Semantics of a `subprocess` call with an optional timeout:
`FileNotFoundError` when the binary is absent (no process is created),
`TimeoutExpired` when a timeout `t` was passed and the run lasts longer,
the finished result otherwise. -/
def runProcess (installed : Bool) (timeout : Option Nat) (b : ProcBehavior) : RunOutcome :=
  if !installed then .notInstalled
  else
    match timeout with
    | some t => if t < b.duration then .timedOut else .done b.result
    | none => .done b.result

/-- How many OS processes a `subprocess` call created:
`FileNotFoundError` is raised by the spawn itself, before any process
exists; every other outcome had a live process. -/
def spawnCount : RunOutcome → Nat
  | .notInstalled => 0
  | .timedOut => 1
  | .done _ => 1

/-- The timeout both session-start call sites pass:
`subprocess.run([...gsession start...], timeout=10)` in
`goose-tui.py` line 276 and `goose-web.py` line 223. -/
def startTimeout : Option Nat := some 10

/-- The timeout of the resume/oneshot send path: `subprocess.Popen` is
called with no timeout argument in `goose-tui.py` 304-310 and
`goose-web.py` 179-185. -/
def resumeTimeout : Option Nat := none

/-- Argument shape of a send in the terminal front-end
(`goose-tui.py` 295-301): resume the current session when one is set,
else a oneshot `goose run`. -/
def tuiSendCmd (session message : String) : List String :=
  if session != "" then
    ["goose", "session", "resume", "-n", session, "-t", message]
  else
    ["goose", "run", "-t", message]

/-- Argument shape of the web send path (`goose-web.py` line 177). -/
def webSendCmd (session message : String) : List String :=
  ["goose", "session", "resume", "-n", session, "-t", message]

/-- Argument shape of session creation (`goose-tui.py` 273,
`goose-web.py` 220). -/
def startCmd (name : String) : List String :=
  ["goose", "session", "start", "-n", name]

/-! ## Terminal front-end state (`goose-tui.py`) -/

/-- One chat bubble / in-memory history entry: role, content, and the
`%H:%M:%S` timestamp string. -/
structure ChatMsg where
  role : String
  content : String
  timestamp : String
deriving Repr, DecidableEq

/-- The mutable state of the TUI that the bridge operations touch:
the current session name, the in-memory `chat_history` list, and the
chat view (every mounted bubble, system bubbles included). -/
structure TuiState where
  currentSession : String
  chatHistory : List ChatMsg
  uiLog : List ChatMsg
deriving Repr, DecidableEq

/-- Method `add_system_message` (`goose-tui.py` 215-222): mounts a system bubble;
note it does NOT append to `chat_history`. -/
def add_system_message (st : TuiState) (now msg : String) : TuiState :=
  { st with uiLog := st.uiLog ++ [{ role := "system", content := msg, timestamp := now }] }

/-- Method `add_user_message` (`goose-tui.py` 224-238): mounts a user bubble and
appends to `chat_history`. -/
def add_user_message (st : TuiState) (now msg : String) : TuiState :=
  { st with
    uiLog := st.uiLog ++ [{ role := "user", content := msg, timestamp := now }]
    chatHistory := st.chatHistory ++ [{ role := "user", content := msg, timestamp := now }] }

/-- Method `add_goose_message` (`goose-tui.py` 240-254): mounts an assistant
bubble and appends to `chat_history`. -/
def add_goose_message (st : TuiState) (now msg : String) : TuiState :=
  { st with
    uiLog := st.uiLog ++ [{ role := "assistant", content := msg, timestamp := now }]
    chatHistory := st.chatHistory ++ [{ role := "assistant", content := msg, timestamp := now }] }

/-- Method `send_to_goose` (`goose-tui.py` 282-337).  Returns the new TUI state
and the number of subprocesses the call created.  Mirrors the source
order: blank-prompt guard, user bubble, thinking notice, `Popen` with no
timeout, capture loop, aggregation with the no-output sentinel, then the
non-zero-exit stderr warning; exception branches surface a system
message. -/
def send_to_goose (st : TuiState) (now message : String) (installed : Bool)
    (b : ProcBehavior) : TuiState × Nat :=
  if pyStrip message == "" then (st, 0)
  else
    let st1 := add_user_message st now message
    let st2 := add_system_message st1 now ("🪿 Goose is thinking...")
    let outcome := runProcess installed resumeTimeout b
    match outcome with
    | .notInstalled =>
        (add_system_message st2 now ("❌ Error: FileNotFoundError"), spawnCount outcome)
    | .timedOut =>
        (add_system_message st2 now ("⏱️ Request timed out"), spawnCount outcome)
    | .done p =>
        let fullResponse := joinLines (captureLines p.outLines)
        let st3 :=
          if fullResponse == "" then add_goose_message st2 now noOutputSentinel
          else add_goose_message st2 now fullResponse
        let st4 :=
          if p.exitCode != 0 then
            if p.errText != "" then add_system_message st3 now ("⚠️ Error: " ++ p.errText)
            else st3
          else st3
        (st4, spawnCount outcome)

/-- Method `start_new_session` (`goose-tui.py` 256-280): resets the current
session name and `chat_history`, mounts the start notice, runs
`goose session start -n name` with `timeout=10`, and surfaces either the
success notice or the caught exception.  Returns the new state and the
spawn count. -/
def start_new_session (st : TuiState) (now name : String) (installed : Bool)
    (b : ProcBehavior) : TuiState × Nat :=
  let st1 := { st with currentSession := name, chatHistory := [] }
  let st2 := add_system_message st1 now ("🆕 Started new session: " ++ name)
  let outcome := runProcess installed startTimeout b
  match outcome with
  | .done _ =>
      (add_system_message st2 now ("✅ Goose session " ++ name ++ " initialized"),
       spawnCount outcome)
  | .timedOut =>
      (add_system_message st2 now ("⚠️ Session init error: TimeoutExpired"),
       spawnCount outcome)
  | .notInstalled =>
      (add_system_message st2 now ("⚠️ Session init error: FileNotFoundError"),
       spawnCount outcome)

/-- Method `load_recent_sessions` (`goose-tui.py` 339-377): returns the session
rows appended to the sidebar list and the system messages surfaced.
Missing DB and `sqlite3` errors are caught and reported; the healthy path
takes the 10 most recently accessed sessions. -/
def load_recent_sessions (store : StoreState SessionRow) : List SessionRow × List String :=
  match store with
  | .missing => ([], ["📂 No sessions database found"])
  | .corrupt e => ([], ["⚠️ DB error: " ++ e])
  | .ok rows =>
      let ss := (querySessionsDesc rows).take 10
      (ss,
       if ss.length != 0 then
         ["📋 Loaded " ++ toString ss.length ++ " recent sessions"]
       else [])

/-- Method `load_session_history` (`goose-tui.py` 379-411): on success clears the
chat view and mounts the queried messages (converted to bubbles) plus the
loaded-count notice, and switches the current session; on an exception the
view is left unchanged and a warning is surfaced. -/
def load_session_history (st : TuiState) (now : String) (store : StoreState MsgRow)
    (sessionName : String) : TuiState :=
  match store with
  | .missing =>
      add_system_message st now ("⚠️ Error loading history: no such file")
  | .corrupt e =>
      add_system_message st now ("⚠️ Error loading history: " ++ e)
  | .ok rows =>
      let msgs := (queryHistory rows sessionName).map
        (fun m => { role := m.role, content := m.content, timestamp := toString m.timestamp })
      let st1 := { st with uiLog := msgs, currentSession := sessionName }
      add_system_message st1 now
        ("📋 Loaded " ++ toString msgs.length ++ " messages from " ++ sessionName)

/-! ## Web socket handlers (`goose-web.py`)

The socket events the server emits.  `lineOut` models the
`socketio.emit` of one incremental output line (wire name
`"partial_response"`); `userMessage`/`assistantMessage` model the
`"message"` event with the corresponding role; `errorMsg` models the
`"error"` event; `sessionCreated` the `"session_created"` event. -/

inductive Event where
  | userMessage (content : String)
  | assistantMessage (content : String)
  | lineOut (content : String)
  | errorMsg (msg : String)
  | sessionCreated (name : String)
deriving Repr, DecidableEq

/-- Whether an event is the `"message"` event with role assistant. -/
def Event.isAssistant : Event → Bool
  | .assistantMessage _ => true
  | _ => false

/-- Whether an event is the `"error"` event. -/
def Event.isError : Event → Bool
  | .errorMsg _ => true
  | _ => false

/-- Contents of the assistant `"message"` events in an event list. -/
def assistantContents (evs : List Event) : List String :=
  evs.filterMap (fun e =>
    match e with
    | .assistantMessage c => some c
    | _ => none)

/-- The state of the web server that `handle_message` touches: the
multiset of session names with a live `run_goose` worker thread.  The
handler keeps no such bookkeeping in the source — it starts a fresh
daemon thread per request — so the only transition is unconditional
insertion. -/
structure WebState where
  active : List String
deriving Repr, DecidableEq

/-- Handler `handle_message` (`goose-web.py` 158-211): empty prompt returns at
once with no event and no thread; otherwise it echoes the user
`"message"` event and starts one new `run_goose` worker thread for the
session, with no check against already-active workers.  Returns the new
state and the synchronously emitted events (the worker's own events are
produced later by `run_goose`). -/
def handle_message (st : WebState) (session message : String) : WebState × List Event :=
  if message == "" then (st, [])
  else ({ st with active := st.active ++ [session] }, [.userMessage message])

/-- The body of the `run_goose` worker thread (`goose-web.py` 175-207):
spawns `goose session resume` with no timeout, emits one
`"partial_response"` per captured line in emission order, waits, then
emits the assistant `"message"` with the newline-joined buffer. The exit
code and stderr are never inspected; only a raised exception (such as
`FileNotFoundError` from the spawn) reaches the `"error"` emit.  Returns
the emitted events and the spawn count. -/
def run_goose (installed : Bool) (b : ProcBehavior) : List Event × Nat :=
  let outcome := runProcess installed resumeTimeout b
  match outcome with
  | .notInstalled => ([.errorMsg ("FileNotFoundError")], spawnCount outcome)
  | .timedOut => ([.errorMsg ("TimeoutExpired")], spawnCount outcome)
  | .done p =>
      ((captureLines p.outLines).map Event.lineOut
        ++ [.assistantMessage (joinLines (captureLines p.outLines))],
       spawnCount outcome)

/-- Handler `handle_new_session` (`goose-web.py` 213-228): runs
`goose session start -n name` with `timeout=10`; the result is ignored
and `"session_created"` emitted, while any caught exception becomes an
`"error"` event. -/
def handle_new_session (installed : Bool) (name : String) (b : ProcBehavior) :
    List Event × Nat :=
  let outcome := runProcess installed startTimeout b
  match outcome with
  | .done _ => ([.sessionCreated name], spawnCount outcome)
  | .timedOut => ([.errorMsg ("Failed to create session: TimeoutExpired")], spawnCount outcome)
  | .notInstalled =>
      ([.errorMsg ("Failed to create session: FileNotFoundError")], spawnCount outcome)

/-- Method `on_mount` (`goose-tui.py` 185-213): checks `goose --version` with
`timeout=5`; only when the binary is found does it load recent sessions
and start the default session.  `FileNotFoundError` surfaces the install
hint and performs nothing else.  Returns the new state and the total
spawn count of the mount sequence. -/
def on_mount (st : TuiState) (now : String) (installed : Bool)
    (store : StoreState SessionRow) (versionRun startRun : ProcBehavior) : TuiState × Nat :=
  let st1 := add_system_message st now ("Initializing Goose CLI...")
  let versionOutcome := runProcess installed (some 5) versionRun
  match versionOutcome with
  | .notInstalled =>
      (add_system_message st1 now ("❌ Goose CLI not found! Install: pip install goose-ai"), 0)
  | .timedOut =>
      (add_system_message st1 now ("⚠️ Error: TimeoutExpired"), 1)
  | .done v =>
      let st2 := add_system_message st1 now
        ("✅ Goose CLI " ++ pyStrip (joinLines v.outLines) ++ " detected")
      let st3 := (load_recent_sessions store).2.foldl
        (fun s m => add_system_message s now m) st2
      let (st4, n) := start_new_session st3 now ("default") installed startRun
      (st4, 1 + n)

/-! ## Helper lemmas -/

/-- A fold of appends from the empty table reproduces the operation list. -/
theorem foldl_appendMessage (ops : List MsgRow) :
    ∀ init : List MsgRow, ops.foldl appendMessage init = init ++ ops := by
  induction ops with
  | nil => intro init; simp
  | cons m rest ih =>
      intro init
      simp [List.foldl_cons, appendMessage, ih (init ++ [m])]

/-- Function `runAppends` reproduces the appended rows in append order. -/
theorem runAppends_eq (ops : List MsgRow) : runAppends ops = ops := by
  simpa using foldl_appendMessage ops []

/-- A nonempty string has positive length. -/
theorem length_pos_of_ne_empty (a : String) (h : a ≠ "") : 0 < a.length := by
  cases a with
  | mk data =>
    cases data with
    | nil => exact absurd rfl h
    | cons c cs => simp [String.length]

/-- The accumulator length never shrinks through `String.intercalate.go`. -/
theorem intercalate_go_length (s : String) :
    ∀ (as : List String) (acc : String),
      acc.length ≤ (String.intercalate.go acc s as).length := by
  intro as
  induction as with
  | nil => intro acc; exact Nat.le_refl _
  | cons a rest ih =>
      intro acc
      have h1 : acc.length ≤ (acc ++ s ++ a).length := by
        simp [String.length_append]
        omega
      exact Nat.le_trans h1 (ih (acc ++ s ++ a))

/-- Every line kept by `captureLines` is nonempty. -/
theorem captureLines_mem_ne (raw : List String) (l : String)
    (h : l ∈ captureLines raw) : l ≠ "" := by
  have := List.of_mem_filter h
  intro he
  rw [he] at this
  simp at this

/-- The newline join of a nonempty captured buffer is a nonempty string:
the buffer head is nonempty and the join only grows from there. -/
theorem joinLines_capture_ne (raw : List String) (h : captureLines raw ≠ []) :
    joinLines (captureLines raw) ≠ "" := by
  rcases he : captureLines raw with _ | ⟨a, as⟩
  · exact absurd he h
  · have ha : a ≠ "" := captureLines_mem_ne raw a (by rw [he]; exact List.mem_cons_self a as)
    have hlen : 0 < a.length := length_pos_of_ne_empty a ha
    have hgo : a.length ≤ (String.intercalate.go a ("\n") as).length :=
      intercalate_go_length ("\n") as a
    intro hempty
    have : joinLines (a :: as) = String.intercalate.go a ("\n") as := rfl
    rw [this] at hempty
    have : (String.intercalate.go a ("\n") as).length = 0 := by rw [hempty]; rfl
    omega

/-- Function `assistantContents` ignores incremental line events. -/
theorem assistantContents_lineOuts (ls : List String) :
    assistantContents (ls.map Event.lineOut) = [] := by
  induction ls with
  | nil => rfl
  | cons a rest ih => simp [assistantContents, List.filterMap_cons]

/-- Function `assistantContents` distributes over appends. -/
theorem assistantContents_append (a b : List Event) :
    assistantContents (a ++ b) = assistantContents a ++ assistantContents b := by
  simp [assistantContents, List.filterMap_append]

/-- Line events are not error events, so an error filter over them is empty. -/
theorem filter_isError_lineOuts (ls : List String) :
    (ls.map Event.lineOut).filter Event.isError = [] := by
  induction ls with
  | nil => rfl
  | cons a rest ih => simp [List.filter_cons, Event.isError]

/-! ## Claim theorems -/

/-- Claim C1: for every session name, the history read operation returns
the session's messages ordered ascending by timestamp, each with the role,
content and timestamp that were appended; and when the per-session
timestamps are appended in ascending order — the Registry invariant — the
returned order is exactly append order (round-trip). -/
theorem c1_history_round_trip (ops : List MsgRow) (n : String)
    (h : List.Sorted msgLE (ops.filter (fun m => m.session_name == n))) :
    queryHistory (runAppends ops) n = ops.filter (fun m => m.session_name == n)
    ∧ List.Sorted msgLE (queryHistory (runAppends ops) n) := by
  constructor
  · rw [runAppends_eq, queryHistory, h.insertionSort_eq]
  · rw [runAppends_eq, queryHistory]
    exact List.sorted_insertionSort msgLE _

/-- Rows used by the C1 witness: two sessions interleaved in the store. -/
def c1Ops : List MsgRow :=
  [{ session_name := "demo", role := "user", content := "hello", timestamp := 1 },
   { session_name := "other", role := "user", content := "x", timestamp := 1 },
   { session_name := "demo", role := "assistant", content := "thinking...", timestamp := 2 },
   { session_name := "demo", role := "assistant", content := "done", timestamp := 3 }]

/-- Witness for C1 at a concrete store. -/
theorem c1_history_round_trip_witness :
    List.Sorted msgLE (c1Ops.filter (fun m => m.session_name == "demo"))
    ∧ (queryHistory (runAppends c1Ops) "demo"
        = c1Ops.filter (fun m => m.session_name == "demo")
      ∧ List.Sorted msgLE (queryHistory (runAppends c1Ops) "demo")) :=
  ⟨by decide, c1_history_round_trip c1Ops ("demo") (by decide)⟩

/-- Claim C2 counterexample: a completed web invocation whose subprocess
emitted no non-empty output line commits the empty string — not the
no-output sentinel — as the assistant message content. -/
theorem c2_web_empty_counterexample :
    (run_goose true
        { duration := 0, result := { outLines := [], exitCode := 0, errText := "" } }).1
      = [Event.assistantMessage ("")]
    ∧ ("" : String) ≠ noOutputSentinel := by
  refine ⟨rfl, ?_⟩
  decide

/-- Claim C2 amended: in the terminal front-end the final aggregated
message is the newline join of the captured non-empty lines, and an empty
buffer becomes the explicit no-output sentinel; the web front-end always
commits the plain newline join, so an empty buffer yields the empty
string there. -/
theorem c2_aggregation_amended (st : TuiState) (now msg : String) (b : ProcBehavior)
    (hmsg : pyStrip msg ≠ "") :
    (send_to_goose st now msg true b).1.chatHistory =
        st.chatHistory ++
          [{ role := "user", content := msg, timestamp := now },
           { role := "assistant", content := tuiAggregate b.result.outLines, timestamp := now }]
    ∧ (captureLines b.result.outLines = [] →
        tuiAggregate b.result.outLines = noOutputSentinel)
    ∧ (captureLines b.result.outLines ≠ [] →
        tuiAggregate b.result.outLines = joinLines (captureLines b.result.outLines))
    ∧ assistantContents (run_goose true b).1 = [joinLines (captureLines b.result.outLines)]
    := by
  have hbeq : (pyStrip msg == "") = false := beq_eq_false_iff_ne.mpr hmsg
  refine ⟨?_, ?_, ?_, ?_⟩
  · by_cases hfull : joinLines (captureLines b.result.outLines) == "" <;>
    by_cases hexit : b.result.exitCode != 0 <;>
    by_cases herr : b.result.errText != "" <;>
    simp [send_to_goose, hbeq, runProcess, resumeTimeout, hfull, hexit, herr,
      add_user_message, add_system_message, add_goose_message, tuiAggregate]
  · intro h
    have hj : joinLines (captureLines b.result.outLines) = "" := by rw [h]; rfl
    simp [tuiAggregate, hj]
  · intro h
    have := joinLines_capture_ne b.result.outLines h
    simp [tuiAggregate, beq_eq_false_iff_ne.mpr this]
  · simp [run_goose, runProcess, resumeTimeout, assistantContents_append,
      assistantContents_lineOuts, assistantContents]

/-- Witness for C2 (amended) at a concrete state and process result. -/
theorem c2_aggregation_amended_witness :
    (pyStrip ("hi") ≠ "")
    ∧ ((send_to_goose { currentSession := "demo", chatHistory := [], uiLog := [] }
          ("12:00:00") ("hi") true
          { duration := 0,
            result := { outLines := ["thinking...", "", "done"], exitCode := 0,
                        errText := "" } }).1.chatHistory =
        [] ++
          [{ role := "user", content := "hi", timestamp := "12:00:00" },
           { role := "assistant",
             content := tuiAggregate ["thinking...", "", "done"], timestamp := "12:00:00" }]
      ∧ (captureLines ["thinking...", "", "done"] = [] →
          tuiAggregate ["thinking...", "", "done"] = noOutputSentinel)
      ∧ (captureLines ["thinking...", "", "done"] ≠ [] →
          tuiAggregate ["thinking...", "", "done"]
            = joinLines (captureLines ["thinking...", "", "done"]))
      ∧ assistantContents (run_goose true
          { duration := 0,
            result := { outLines := ["thinking...", "", "done"], exitCode := 0,
                        errText := "" } }).1
          = [joinLines (captureLines ["thinking...", "", "done"])]) :=
  ⟨by decide,
   c2_aggregation_amended { currentSession := "demo", chatHistory := [], uiLog := [] }
     ("12:00:00") ("hi")
     { duration := 0,
       result := { outLines := ["thinking...", "", "done"], exitCode := 0, errText := "" } }
     (by decide)⟩

/-- Claim C3 counterexample: when the web subprocess exits 1 with error
text after emitting one line, the worker still commits the captured line
but emits no error/warning event at all — the captured error text is
never surfaced. -/
theorem c3_web_no_warning_counterexample :
    (run_goose true
        { duration := 0,
          result := { outLines := ["partial line"], exitCode := 1, errText := "boom" } }).1
      = [Event.lineOut ("partial line"), Event.assistantMessage ("partial line")]
    ∧ ((run_goose true
        { duration := 0,
          result := { outLines := ["partial line"], exitCode := 1, errText := "boom" } }).1.filter
          Event.isError) = [] := by
  constructor
  · decide
  · decide

/-- Claim C3 amended: in the terminal front-end, a non-zero exit after
output keeps the captured lines committed as the assistant message and
additionally surfaces the captured error text as a system warning after
(not instead of) the commit; the web front-end also keeps the captured
lines committed, but never inspects the exit code or stderr, so no
warning is surfaced there. -/
theorem c3_nonzero_exit_amended (st : TuiState) (now msg : String) (b : ProcBehavior)
    (hmsg : pyStrip msg ≠ "") (hexit : b.result.exitCode ≠ 0)
    (hlines : captureLines b.result.outLines ≠ []) (herr : b.result.errText ≠ "") :
    (send_to_goose st now msg true b).1.chatHistory =
        st.chatHistory ++
          [{ role := "user", content := msg, timestamp := now },
           { role := "assistant", content := joinLines (captureLines b.result.outLines),
             timestamp := now }]
    ∧ (send_to_goose st now msg true b).1.uiLog =
        st.uiLog ++
          [{ role := "user", content := msg, timestamp := now },
           { role := "system", content := "🪿 Goose is thinking...", timestamp := now },
           { role := "assistant", content := joinLines (captureLines b.result.outLines),
             timestamp := now },
           { role := "system", content := "⚠️ Error: " ++ b.result.errText, timestamp := now }]
    ∧ assistantContents (run_goose true b).1 = [joinLines (captureLines b.result.outLines)]
    ∧ (run_goose true b).1.filter Event.isError = [] := by
  have hbeq : (pyStrip msg == "") = false := beq_eq_false_iff_ne.mpr hmsg
  have hfull : (joinLines (captureLines b.result.outLines) == "") = false :=
    beq_eq_false_iff_ne.mpr (joinLines_capture_ne b.result.outLines hlines)
  refine ⟨?_, ?_, ?_, ?_⟩
  · simp [send_to_goose, hbeq, runProcess, resumeTimeout, hfull, hexit, herr,
      add_user_message, add_system_message, add_goose_message]
  · simp [send_to_goose, hbeq, runProcess, resumeTimeout, hfull, hexit, herr,
      add_user_message, add_system_message, add_goose_message]
  · simp [run_goose, runProcess, resumeTimeout, assistantContents_append,
      assistantContents_lineOuts, assistantContents]
  · simp [run_goose, runProcess, resumeTimeout, List.filter_append,
      filter_isError_lineOuts, Event.isError]

/-- Witness for C3 (amended): the mock run that emits one line then
exits 1 with error text. -/
theorem c3_nonzero_exit_amended_witness :
    (pyStrip ("hi") ≠ "")
    ∧ ((1 : Int) ≠ 0)
    ∧ (captureLines ["partial line"] ≠ [])
    ∧ (("boom" : String) ≠ "")
    ∧ ((send_to_goose { currentSession := "demo", chatHistory := [], uiLog := [] }
          ("12:00:00") ("hi") true
          { duration := 0,
            result := { outLines := ["partial line"], exitCode := 1,
                        errText := "boom" } }).1.chatHistory =
        [] ++
          [{ role := "user", content := "hi", timestamp := "12:00:00" },
           { role := "assistant", content := joinLines (captureLines ["partial line"]),
             timestamp := "12:00:00" }]
      ∧ (send_to_goose { currentSession := "demo", chatHistory := [], uiLog := [] }
          ("12:00:00") ("hi") true
          { duration := 0,
            result := { outLines := ["partial line"], exitCode := 1,
                        errText := "boom" } }).1.uiLog =
        [] ++
          [{ role := "user", content := "hi", timestamp := "12:00:00" },
           { role := "system", content := "🪿 Goose is thinking...", timestamp := "12:00:00" },
           { role := "assistant", content := joinLines (captureLines ["partial line"]),
             timestamp := "12:00:00" },
           { role := "system", content := "⚠️ Error: " ++ "boom", timestamp := "12:00:00" }]
      ∧ assistantContents (run_goose true
          { duration := 0,
            result := { outLines := ["partial line"], exitCode := 1,
                        errText := "boom" } }).1
          = [joinLines (captureLines ["partial line"])]
      ∧ (run_goose true
          { duration := 0,
            result := { outLines := ["partial line"], exitCode := 1,
                        errText := "boom" } }).1.filter Event.isError = []) :=
  ⟨by decide, by decide, by decide, by decide,
   c3_nonzero_exit_amended { currentSession := "demo", chatHistory := [], uiLog := [] }
     ("12:00:00") ("hi")
     { duration := 0,
       result := { outLines := ["partial line"], exitCode := 1, errText := "boom" } }
     (by decide) (by decide) (by decide) (by decide)⟩

/-- Claim C4 counterexample: with a worker already active for session
"demo", a second non-empty send for "demo" immediately starts a second
concurrent worker for the same session — the request neither blocks nor
is rejected. -/
theorem c4_concurrent_workers_counterexample :
    ((handle_message { active := ["demo"] } ("demo") ("hi")).1.active.count ("demo")) = 2
    ∧ (handle_message { active := ["demo"] } ("demo") ("hi")).2
        = [Event.userMessage ("hi")] := by
  constructor <;> decide

/-- Claim C4 amended: the web handler performs no per-session exclusion —
every non-empty send unconditionally starts one more worker thread for
the session, concurrent with any already active one — but each worker
accumulates only its own subprocess's captured lines, so every aggregated
assistant message contains the lines of exactly one subprocess run. -/
theorem c4_no_exclusion_amended (st : WebState) (s m : String) (b : ProcBehavior)
    (h : m ≠ "") :
    (handle_message st s m).1.active = st.active ++ [s]
    ∧ assistantContents (run_goose true b).1
        = [joinLines (captureLines b.result.outLines)] := by
  have hb : (m == "") = false := beq_eq_false_iff_ne.mpr h
  constructor
  · simp [handle_message, hb]
  · simp [run_goose, runProcess, resumeTimeout, assistantContents_append,
      assistantContents_lineOuts, assistantContents]

/-- Witness for C4 (amended) at a concrete web state and run. -/
theorem c4_no_exclusion_amended_witness :
    (("hi" : String) ≠ "")
    ∧ ((handle_message { active := ["demo"] } ("demo") ("hi")).1.active = ["demo"] ++ ["demo"]
      ∧ assistantContents (run_goose true
          { duration := 0,
            result := { outLines := ["done"], exitCode := 0, errText := "" } }).1
          = [joinLines (captureLines ["done"])]) :=
  ⟨by decide,
   c4_no_exclusion_amended { active := ["demo"] } ("demo") ("hi")
     { duration := 0, result := { outLines := ["done"], exitCode := 0, errText := "" } }
     (by decide)⟩

/-- Claim C5: every start-mode invocation runs under `timeout=10`; a run
exceeding that bound produces the timeout failure, which is surfaced as a
notice/error while the transcript stays empty in both front-ends; the
resume-mode send path passes no timeout, so it can never produce a
timeout outcome regardless of duration. -/
theorem c5_start_timeout (st : TuiState) (now name : String) (b : ProcBehavior)
    (h : 10 < b.duration) :
    startTimeout = some 10
    ∧ runProcess true startTimeout b = .timedOut
    ∧ (start_new_session st now name true b).1.chatHistory = []
    ∧ (start_new_session st now name true b).1.uiLog =
        st.uiLog ++
          [{ role := "system", content := "🆕 Started new session: " ++ name, timestamp := now },
           { role := "system", content := "⚠️ Session init error: TimeoutExpired",
             timestamp := now }]
    ∧ (handle_new_session true name b).1 =
        [Event.errorMsg ("Failed to create session: TimeoutExpired")]
    ∧ (∀ (installed : Bool) (b2 : ProcBehavior),
        runProcess installed resumeTimeout b2 ≠ RunOutcome.timedOut) := by
  have hrun : runProcess true startTimeout b = .timedOut := by
    simp [runProcess, startTimeout, h]
  refine ⟨rfl, hrun, ?_, ?_, ?_, ?_⟩
  · simp [start_new_session, hrun, add_system_message]
  · simp [start_new_session, hrun, add_system_message]
  · simp [handle_new_session, hrun]
  · intro installed b2
    cases installed <;> simp [runProcess, resumeTimeout]

/-- Witness for C5: a start run of duration 11 exceeds the bound. -/
theorem c5_start_timeout_witness :
    (10 < 11)
    ∧ (startTimeout = some 10
      ∧ runProcess true startTimeout
          { duration := 11, result := { outLines := [], exitCode := 0, errText := "" } }
          = .timedOut
      ∧ (start_new_session { currentSession := "", chatHistory := [], uiLog := [] }
          ("12:00:00") ("demo") true
          { duration := 11,
            result := { outLines := [], exitCode := 0, errText := "" } }).1.chatHistory = []
      ∧ (start_new_session { currentSession := "", chatHistory := [], uiLog := [] }
          ("12:00:00") ("demo") true
          { duration := 11,
            result := { outLines := [], exitCode := 0, errText := "" } }).1.uiLog =
          [] ++
            [{ role := "system", content := "🆕 Started new session: " ++ "demo",
               timestamp := "12:00:00" },
             { role := "system", content := "⚠️ Session init error: TimeoutExpired",
               timestamp := "12:00:00" }]
      ∧ (handle_new_session true ("demo")
          { duration := 11, result := { outLines := [], exitCode := 0, errText := "" } }).1 =
          [Event.errorMsg ("Failed to create session: TimeoutExpired")]
      ∧ (∀ (installed : Bool) (b2 : ProcBehavior),
          runProcess installed resumeTimeout b2 ≠ RunOutcome.timedOut)) :=
  ⟨by decide,
   c5_start_timeout { currentSession := "", chatHistory := [], uiLog := [] }
     ("12:00:00") ("demo")
     { duration := 11, result := { outLines := [], exitCode := 0, errText := "" } }
     (by decide)⟩

/-- Claim C6: when the agent binary cannot be located, the spawn raises
before any subprocess exists, so zero processes are created in every
code path; the failure is surfaced to the user as an error notice; and
since only spawned agent subprocesses write the message store, no
Message row is created. -/
theorem c6_agent_not_installed (st : TuiState) (now msg : String)
    (b : ProcBehavior) (store : StoreState SessionRow) (w : List MsgRow)
    (hmsg : pyStrip msg ≠ "") :
    (send_to_goose st now msg false b).2 = 0
    ∧ (send_to_goose st now msg false b).1.uiLog =
        st.uiLog ++
          [{ role := "user", content := msg, timestamp := now },
           { role := "system", content := "🪿 Goose is thinking...", timestamp := now },
           { role := "system", content := "❌ Error: FileNotFoundError", timestamp := now }]
    ∧ (run_goose false b).2 = 0
    ∧ (run_goose false b).1 = [Event.errorMsg ("FileNotFoundError")]
    ∧ (run_goose false b).1.filter Event.isAssistant = []
    ∧ (on_mount st now false store b b).2 = 0
    ∧ invocationStoreWrites 0 w = [] := by
  have hbeq : (pyStrip msg == "") = false := beq_eq_false_iff_ne.mpr hmsg
  refine ⟨?_, ?_, ?_, ?_, ?_, ?_, ?_⟩
  · simp [send_to_goose, hbeq, runProcess, spawnCount]
  · simp [send_to_goose, hbeq, runProcess, add_user_message, add_system_message]
  · simp [run_goose, runProcess, spawnCount]
  · simp [run_goose, runProcess]
  · simp [run_goose, runProcess, Event.isAssistant]
  · simp [on_mount, runProcess]
  · simp [invocationStoreWrites]

/-- Witness for C6: a concrete non-blank send with the binary absent. -/
theorem c6_agent_not_installed_witness :
    (pyStrip ("hi") ≠ "")
    ∧ ((send_to_goose { currentSession := "demo", chatHistory := [], uiLog := [] }
          ("12:00:00") ("hi") false
          { duration := 0, result := { outLines := [], exitCode := 0, errText := "" } }).2 = 0
      ∧ (send_to_goose { currentSession := "demo", chatHistory := [], uiLog := [] }
          ("12:00:00") ("hi") false
          { duration := 0,
            result := { outLines := [], exitCode := 0, errText := "" } }).1.uiLog =
          [] ++
            [{ role := "user", content := "hi", timestamp := "12:00:00" },
             { role := "system", content := "🪿 Goose is thinking...", timestamp := "12:00:00" },
             { role := "system", content := "❌ Error: FileNotFoundError",
               timestamp := "12:00:00" }]
      ∧ (run_goose false
          { duration := 0, result := { outLines := [], exitCode := 0, errText := "" } }).2 = 0
      ∧ (run_goose false
          { duration := 0, result := { outLines := [], exitCode := 0, errText := "" } }).1
          = [Event.errorMsg ("FileNotFoundError")]
      ∧ (run_goose false
          { duration := 0,
            result := { outLines := [], exitCode := 0, errText := "" } }).1.filter
            Event.isAssistant = []
      ∧ (on_mount { currentSession := "demo", chatHistory := [], uiLog := [] }
          ("12:00:00") false (StoreState.ok [])
          { duration := 0, result := { outLines := [], exitCode := 0, errText := "" } }
          { duration := 0, result := { outLines := [], exitCode := 0, errText := "" } }).2 = 0
      ∧ invocationStoreWrites 0 [] = []) :=
  ⟨by decide,
   c6_agent_not_installed { currentSession := "demo", chatHistory := [], uiLog := [] }
     ("12:00:00") ("hi")
     { duration := 0, result := { outLines := [], exitCode := 0, errText := "" } }
     (StoreState.ok []) [] (by decide)⟩

/-- Eleven stored sessions, already in descending access order, used by
the C7 counterexample. -/
def c7Rows : List SessionRow :=
  (List.range 11).map
    (fun i => { name := "s", created_at := i, last_accessed := 100 - i, directory := "" })

/-- Claim C7 counterexample: with eleven stored sessions the web listing
returns all eleven — it applies no limit at all — while the terminal
listing truncates to the ten most recent. -/
theorem c7_no_limit_counterexample :
    (api_sessions (StoreState.ok c7Rows)).sessions.length = 11
    ∧ (load_recent_sessions (StoreState.ok c7Rows)).1.length = 10 := by
  constructor <;> decide

/-- Claim C7 amended: both listings return the sessions ordered by
last-accessed descending; the terminal listing truncates to the ten most
recently accessed rows (a fixed limit of 10), while the web listing
applies no limit and returns every stored session. -/
theorem c7_listing_amended (rows : List SessionRow) :
    List.Sorted accGE (api_sessions (StoreState.ok rows)).sessions
    ∧ (api_sessions (StoreState.ok rows)).sessions.length = rows.length
    ∧ (load_recent_sessions (StoreState.ok rows)).1 = (querySessionsDesc rows).take 10
    ∧ List.Sorted accGE (load_recent_sessions (StoreState.ok rows)).1 := by
  refine ⟨?_, ?_, rfl, ?_⟩
  · exact List.sorted_insertionSort accGE rows
  · simp [api_sessions, querySessionsDesc, List.length_insertionSort]
  · exact List.Pairwise.sublist (List.take_sublist 10 _)
      (List.sorted_insertionSort accGE rows)

/-- Claim C8 counterexample: with the backing store missing, the web
history endpoint returns a plain empty-history success response with no
warning and no error payload — the warning the claim requires is absent. -/
theorem c8_no_warning_counterexample :
    api_session_history StoreState.missing ("demo")
      = { status := 200, messages := [], error := none } := by
  rfl

/-- Claim C8 amended: every store-access failure is caught and degraded
without aborting the process: the web endpoints answer a missing store
with an empty listing/history and no warning, and a corrupt store with a
500 error payload; the terminal front-end degrades to an empty session
list or an unchanged transcript and surfaces a warning system message. -/
theorem c8_degrade_amended (n e now : String) (st : TuiState) :
    api_session_history StoreState.missing n
        = { status := 200, messages := [], error := none }
    ∧ (api_session_history (StoreState.corrupt e) n).status = 500
    ∧ (api_session_history (StoreState.corrupt e) n).messages = []
    ∧ (api_session_history (StoreState.corrupt e) n).error = some e
    ∧ (api_sessions StoreState.missing).sessions = []
    ∧ (api_sessions (StoreState.corrupt e)).status = 500
    ∧ load_recent_sessions StoreState.missing = ([], ["📂 No sessions database found"])
    ∧ load_recent_sessions (StoreState.corrupt e) = ([], ["⚠️ DB error: " ++ e])
    ∧ (load_session_history st now (StoreState.corrupt e) n).uiLog =
        st.uiLog ++
          [{ role := "system", content := "⚠️ Error loading history: " ++ e,
             timestamp := now }]
    ∧ (load_session_history st now (StoreState.corrupt e) n).chatHistory
        = st.chatHistory := by
  refine ⟨rfl, rfl, rfl, rfl, rfl, rfl, rfl, rfl, ?_, ?_⟩
  · simp [load_session_history, add_system_message]
  · simp [load_session_history, add_system_message]

/-- Claim C9: a send request with an empty prompt (web) or a
whitespace-only prompt (terminal) is a complete no-op: the state is
unchanged, no event is emitted, no message is appended, and no
subprocess is spawned. -/
theorem c9_blank_prompt_noop (st : TuiState) (wst : WebState) (now msg wmsg s : String)
    (installed : Bool) (b : ProcBehavior)
    (h1 : pyStrip msg = "") (h2 : wmsg = "") :
    send_to_goose st now msg installed b = (st, 0)
    ∧ handle_message wst s wmsg = (wst, []) := by
  constructor
  · simp [send_to_goose, h1]
  · simp [handle_message, h2]

/-- Witness for C9: a whitespace-only terminal prompt and an empty web
prompt. -/
theorem c9_blank_prompt_noop_witness :
    (pyStrip ("   ") = "")
    ∧ (("" : String) = "")
    ∧ (send_to_goose { currentSession := "demo", chatHistory := [], uiLog := [] }
        ("12:00:00") ("   ") true
        { duration := 0, result := { outLines := ["x"], exitCode := 0, errText := "" } }
        = ({ currentSession := "demo", chatHistory := [], uiLog := [] }, 0)
      ∧ handle_message { active := [] } ("demo") ("")
        = ({ active := [] }, [])) :=
  ⟨by decide, rfl,
   c9_blank_prompt_noop { currentSession := "demo", chatHistory := [], uiLog := [] }
     { active := [] } ("12:00:00") ("   ") ("") ("demo") true
     { duration := 0, result := { outLines := ["x"], exitCode := 0, errText := "" } }
     (by decide) rfl⟩

/-- Looking up an untouched key after setting a different key is
unchanged. -/
theorem lookupKey_setKey_ne (cfg : List (String × String)) (k2 k v : String)
    (h : k2 ≠ k) : lookupKey (setKey cfg k2 v) k = lookupKey cfg k := by
  induction cfg with
  | nil => simp [setKey, lookupKey, beq_eq_false_iff_ne.mpr h]
  | cons kv rest ih =>
      obtain ⟨ka, va⟩ := kv
      by_cases hk : ka == k2
      · have hk2 : ka = k2 := by simpa using hk
        simp [setKey, hk, lookupKey, hk2, beq_eq_false_iff_ne.mpr h]
      · simp [setKey, hk, lookupKey, ih]

/-- Looking up a key just set returns the supplied value. -/
theorem lookupKey_setKey_self (cfg : List (String × String)) (k v : String) :
    lookupKey (setKey cfg k v) k = some v := by
  induction cfg with
  | nil => simp [setKey, lookupKey]
  | cons kv rest ih =>
      obtain ⟨ka, va⟩ := kv
      by_cases hk : ka == k
      · simp [setKey, hk, lookupKey]
      · simp [setKey, hk, lookupKey, ih]

/-- Python `dict.update` with keys all different from `k` does not change the
value at `k`. -/
theorem lookupKey_dictUpdate_not_mem (upd : List (String × String)) (k : String) :
    (∀ kv ∈ upd, kv.1 ≠ k) →
    ∀ cfg, lookupKey (dictUpdate cfg upd) k = lookupKey cfg k := by
  induction upd with
  | nil => intro _ cfg; rfl
  | cons kv rest ih =>
      intro h cfg
      have h1 : kv.1 ≠ k := h kv (List.mem_cons_self kv rest)
      have h2 : ∀ kv2 ∈ rest, kv2.1 ≠ k := fun kv2 hm => h kv2 (List.mem_cons_of_mem kv hm)
      have hu : dictUpdate cfg (kv :: rest) = dictUpdate (setKey cfg kv.1 kv.2) rest := rfl
      rw [hu, ih h2 (setKey cfg kv.1 kv.2), lookupKey_setKey_ne cfg kv.1 k kv.2 h1]

/-- Python `dict.update` composes over concatenated update lists. -/
theorem dictUpdate_append (cfg upd1 upd2 : List (String × String)) :
    dictUpdate cfg (upd1 ++ upd2) = dictUpdate (dictUpdate cfg upd1) upd2 := by
  simp [dictUpdate, List.foldl_append]

/-- Claim C10: a configuration POST merges the supplied keys into the
existing configuration — every configuration key absent from the request
body keeps its previous value, a supplied key takes the supplied value —
and the same full merged configuration is both written to the config
file and returned in the response. -/
theorem c10_config_merge (cfg upd : List (String × String)) (k : String)
    (h : ∀ kv ∈ upd, kv.1 ≠ k) :
    lookupKey (api_config_post cfg upd).response k = lookupKey cfg k
    ∧ (∀ k2 v, lookupKey (api_config_post cfg (upd ++ [(k2, v)])).response k2 = some v)
    ∧ (api_config_post cfg upd).savedFile = dictUpdate cfg upd
    ∧ (api_config_post cfg upd).response = dictUpdate cfg upd
    ∧ (api_config_post cfg upd).savedFile = (api_config_post cfg upd).response := by
  refine ⟨lookupKey_dictUpdate_not_mem upd k h cfg, ?_, rfl, rfl, rfl⟩
  intro k2 v
  have : (api_config_post cfg (upd ++ [(k2, v)])).response
      = setKey (dictUpdate cfg upd) k2 v := by
    simp [api_config_post, dictUpdate_append, dictUpdate]
  rw [this, lookupKey_setKey_self]

/-- Witness for C10 on a concrete configuration and update. -/
theorem c10_config_merge_witness :
    (∀ kv ∈ [(("model" : String), ("gpt-5" : String))], kv.1 ≠ "provider")
    ∧ (lookupKey (api_config_post
          [("provider", "openai"), ("model", "gpt-4")] [("model", "gpt-5")]).response
          ("provider")
        = lookupKey [("provider", "openai"), ("model", "gpt-4")] ("provider")
      ∧ (∀ k2 v, lookupKey (api_config_post
            [("provider", "openai"), ("model", "gpt-4")]
            ([("model", "gpt-5")] ++ [(k2, v)])).response k2 = some v)
      ∧ (api_config_post
            [("provider", "openai"), ("model", "gpt-4")] [("model", "gpt-5")]).savedFile
          = dictUpdate [("provider", "openai"), ("model", "gpt-4")] [("model", "gpt-5")]
      ∧ (api_config_post
            [("provider", "openai"), ("model", "gpt-4")] [("model", "gpt-5")]).response
          = dictUpdate [("provider", "openai"), ("model", "gpt-4")] [("model", "gpt-5")]
      ∧ (api_config_post
            [("provider", "openai"), ("model", "gpt-4")] [("model", "gpt-5")]).savedFile
          = (api_config_post
            [("provider", "openai"), ("model", "gpt-4")] [("model", "gpt-5")]).response) :=
  ⟨by decide,
   c10_config_merge [("provider", "openai"), ("model", "gpt-4")] [("model", "gpt-5")]
     ("provider") (by decide)⟩

end GooseDashboard
